import Mathlib

/-! # mandelvr: a verification development

Shallow embedding of the parts of `src/main.cpp`, `src/MandelRenderer.cpp`
and `src/WindowManager.cpp` that the specification talks about, followed by
the theorems that settle the claims of the specification.

Conventions of the embedding

* `GLfloat` / `double` values are modelled by the rational number they
  denote.  Almost every float that the modelled code handles is a literal
  (`0.0`, `1.0`, `-1`) or a copy of a value it was given.  Where the code
  computes (one product in `renderBulb`, two quotients in
  `cursorPosCallback`) the model takes the exact rational result, which the
  machine would round; no theorem below depends on the rounding.
* `int` / `GLint` values are modelled by `Int`.
* A function that writes to `cerr` returns its value together with the list
  of lines it wrote.
* Calls into OpenGL are modelled by the list of commands (`GLCmd`) issued, in
  program order.
-/

namespace MandelVR

set_option linter.unusedVariables false

/-! ## Basic value types -/

/-- A `GLfloat` value: the rational it denotes. -/
abbrev GLfloat := ℚ

/-- A `double` value: the rational it denotes. -/
abbrev double := ℚ

/-- The `glm::vec2` of the source. -/
structure vec2 where
  x : GLfloat
  y : GLfloat
deriving DecidableEq, Repr

/-- The `glm::vec3` of the source. -/
structure vec3 where
  x : GLfloat
  y : GLfloat
  z : GLfloat
deriving DecidableEq, Repr

/-- The `glm::vec4` of the source. -/
structure vec4 where
  x : GLfloat
  y : GLfloat
  z : GLfloat
  w : GLfloat
deriving DecidableEq, Repr

/-- The `glm::dot` of two `vec4`: the sum of the four component products. -/
def vec4.dot (a b : vec4) : GLfloat :=
  a.x * b.x + a.y * b.y + a.z * b.z + a.w * b.w

/-- The cross product of the `xyz` parts of two `vec4`. -/
def vec4.cross3 (a b : vec4) : vec3 :=
  ⟨a.y * b.z - a.z * b.y, a.z * b.x - a.x * b.z, a.x * b.y - a.y * b.x⟩

/-- A unit axis direction: `w = 0` and exactly one of `x`, `y`, `z` is
non-zero, that one being `+1` or `-1`. -/
def vec4.isUnitAxis (v : vec4) : Prop :=
  v.w = 0 ∧
  (((v.x = 1 ∨ v.x = -1) ∧ v.y = 0 ∧ v.z = 0) ∨
   (v.x = 0 ∧ (v.y = 1 ∨ v.y = -1) ∧ v.z = 0) ∨
   (v.x = 0 ∧ v.y = 0 ∧ (v.z = 1 ∨ v.z = -1)))

/-! ## `Application::texture_dirs` and the face basis table (main.cpp 90-98, 398-451) -/

/-- Enumerator `TOP = 0` of `enum texture_dirs`. -/
abbrev TOP : Int := 0
/-- Enumerator `BOTTOM` of `enum texture_dirs`. -/
abbrev BOTTOM : Int := 1
/-- Enumerator `LEFT` of `enum texture_dirs`. -/
abbrev LEFT : Int := 2
/-- Enumerator `RIGHT` of `enum texture_dirs`. -/
abbrev RIGHT : Int := 3
/-- Enumerator `FRONT` of `enum texture_dirs`. -/
abbrev FRONT : Int := 4
/-- Enumerator `BACK` of `enum texture_dirs`. -/
abbrev BACK : Int := 5
/-- Enumerator `NUM_SIDES` of `enum texture_dirs`. -/
abbrev NUM_SIDES : Int := 6

/-- The six faces, in the order of the enumeration. -/
def faces : List Int := [TOP, BOTTOM, LEFT, RIGHT, FRONT, BACK]

/-- The line `cerr << "Invalid direction enum: " << dir << endl` writes. -/
def invalidDirectionLine (dir : Int) : String :=
  "Invalid direction enum: " ++ toString dir

/-- Function `Application::dirEnumToDirection`: the `switch` on `dir`.  The `default`
label comes first in the source, writes the diagnostic line and falls through
into `case FRONT`.  Returns the vector and the lines written to `cerr`. -/
def dirEnumToDirection (dir : Int) : vec4 × List String :=
  if dir = FRONT then (⟨0, 0, -1, 0⟩, [])
  else if dir = BACK then (⟨0, 0, 1, 0⟩, [])
  else if dir = LEFT then (⟨-1, 0, 0, 0⟩, [])
  else if dir = RIGHT then (⟨1, 0, 0, 0⟩, [])
  else if dir = TOP then (⟨0, 1, 0, 0⟩, [])
  else if dir = BOTTOM then (⟨0, -1, 0, 0⟩, [])
  else (⟨0, 0, -1, 0⟩, [invalidDirectionLine dir])

/-- Function `Application::dirEnumToUp`: same shape as `dirEnumToDirection`, the
`default` label falling through into `case FRONT`. -/
def dirEnumToUp (dir : Int) : vec4 × List String :=
  if dir = FRONT then (⟨0, 1, 0, 0⟩, [])
  else if dir = BACK then (⟨0, 1, 0, 0⟩, [])
  else if dir = LEFT then (⟨0, 1, 0, 0⟩, [])
  else if dir = RIGHT then (⟨0, 1, 0, 0⟩, [])
  else if dir = TOP then (⟨0, 0, 1, 0⟩, [])
  else if dir = BOTTOM then (⟨0, 0, -1, 0⟩, [])
  else (⟨0, 1, 0, 0⟩, [invalidDirectionLine dir])

/-- The six signed axis directions `+X, -X, +Y, -Y, +Z, -Z`. -/
def signedAxes : List vec4 :=
  [⟨1, 0, 0, 0⟩, ⟨-1, 0, 0, 0⟩, ⟨0, 1, 0, 0⟩, ⟨0, -1, 0, 0⟩, ⟨0, 0, 1, 0⟩, ⟨0, 0, -1, 0⟩]

/-! ## OpenGL commands -/

/-- The value of `GL_TRIANGLES`. -/
abbrev GL_TRIANGLES : Nat := 0x0004
/-- The value of `GL_COLOR_BUFFER_BIT`. -/
abbrev GL_COLOR_BUFFER_BIT : Nat := 0x4000
/-- The value of `GL_DEPTH_BUFFER_BIT`. -/
abbrev GL_DEPTH_BUFFER_BIT : Nat := 0x0100

/-- A column-major 4x4 matrix as `value_ptr` hands it to OpenGL. -/
abbrev mat4 := List GLfloat

/-- The OpenGL calls the modelled code makes.  A call
`glUniformX(prog->getUniform(name), ...)` is recorded with the `name` it looks
up (class `Program`, which turns names into locations, is not among the
sources).  `glUniform3fv(loc, 1, p)` reads the three floats at `p`. -/
inductive GLCmd where
  | viewport (x y width height : Int)
  | clearColor (r g b a : GLfloat)
  | clear (mask : Nat)
  | bindProgram
  | unbindProgram
  | uniform2f (name : String) (v0 v1 : GLfloat)
  | uniform1f (name : String) (v0 : GLfloat)
  | uniform1i (name : String) (v0 : Int)
  | uniform3fv (name : String) (value : vec3)
  | uniformMatrix4fv (name : String) (value : mat4)
  | bindVertexArray (array : Nat)
  | drawArrays (mode : Nat) (first count : Int)
deriving DecidableEq, Repr

/-- The shader input a command uploads to, if it is an upload. -/
def GLCmd.uniformName : GLCmd → Option String
  | .uniform2f n _ _ => some n
  | .uniform1f n _ => some n
  | .uniform1i n _ => some n
  | .uniform3fv n _ => some n
  | .uniformMatrix4fv n _ => some n
  | _ => none

/-- Whether a command is a draw call. -/
def GLCmd.isDraw : GLCmd → Bool
  | .drawArrays _ _ _ => true
  | _ => false

/-- The conversion C++ applies when a `float` is passed where a `GLint` /
`GLsizei` is expected: truncation toward zero. -/
def toGLint (f : GLfloat) : Int := Int.tdiv f.num f.den

/-- The conversion of a `bool` passed where a `GLint` is expected. -/
def boolToGLint (b : Bool) : Int := if b then 1 else 0

/-! ## `MandelRenderer` (MandelRenderer.cpp) -/

/-- Modelled from the spec: the declaration of `RenderData` (MandelRenderer.h)
is not among the sources.  The fields are those that `render` and
`render_internal` read or write, under the names the code uses, together with
the remaining fields that the data model of the specification enumerates
(`intersectStepSize`, `startOffset`, `escapeFactor`, `mapResultFactor`), under
the names `Application` gives them in main.cpp. -/
structure RenderData where
  clear_color : vec3
  y_color : vec3
  z_color : vec3
  w_color : vec3
  diff1 : vec3
  diff2 : vec3
  diff3 : vec3
  intersect_step_size : GLfloat
  intersect_step_count : Int
  zoom_level : GLfloat
  start_offset : GLfloat
  modulo : Int
  iTest : Int
  escape_factor : GLfloat
  map_result_factor : GLfloat
  map_iter_count : Int
  juliaFactor : GLfloat
  juliaPoint : vec3
  exhaust : Bool
deriving DecidableEq, Repr

/-- The state of a `MandelRenderer`: the member `data` and the two static
handles. -/
structure MandelRenderer where
  data : RenderData
  VertexArrayUnitPlane : Nat
  VertexBufferUnitPlane : Nat
deriving DecidableEq, Repr

/-- Function `MandelRenderer::render_internal` (lines 50-78): the OpenGL calls in
program order.  `dat` is taken by reference and only read. -/
def MandelRenderer.render_internal (r : MandelRenderer) (size : vec2) (dat : RenderData) :
    List GLCmd :=
  [ .viewport 0 0 (toGLint size.x) (toGLint size.y),
    .clearColor 0 0 0 0,
    .clear GL_COLOR_BUFFER_BIT,
    .uniform2f "resolution" size.x size.y,
    .uniform1i "intersectStepCount" dat.intersect_step_count,
    .uniform3fv "clearColor" dat.clear_color,
    .uniform3fv "yColor" dat.y_color,
    .uniform3fv "zColor" dat.z_color,
    .uniform3fv "wColor" dat.w_color,
    .uniform3fv "diffc1" dat.diff1,
    .uniform3fv "diffc2" dat.diff2,
    .uniform3fv "diffc3" dat.diff3,
    .uniform1f "viewscale" dat.zoom_level,
    .uniform1i "modulo" dat.modulo,
    .uniform1i "iTest" dat.iTest,
    .uniform1f "juliaFactor" dat.juliaFactor,
    .uniform3fv "juliaPoint" dat.juliaPoint,
    .uniform1i "mapIterCount" dat.map_iter_count,
    .uniform1i "exhaust" (boolToGLint dat.exhaust),
    .bindVertexArray r.VertexArrayUnitPlane,
    .drawArrays GL_TRIANGLES 0 6 ]

/-- The local `d2` of `MandelRenderer::render` after lines 44-46:
`RenderData d2 = data; d2.zoom_level = zoomLevel; d2.exhaust = exhaust;`. -/
def MandelRenderer.render_d2 (r : MandelRenderer) (zoomLevel : GLfloat) (exhaust : Bool) :
    RenderData :=
  let d2 := r.data
  let d2 := { d2 with zoom_level := zoomLevel }
  let d2 := { d2 with exhaust := exhaust }
  d2

/-- Function `MandelRenderer::render` (lines 41-48): builds `d2` and calls
`render_internal(prog, size, d2)`.  Returns the renderer state after the call
and the OpenGL calls made. -/
def MandelRenderer.render (r : MandelRenderer) (zoomLevel : GLfloat) (size : vec2)
    (exhaust : Bool) : MandelRenderer × List GLCmd :=
  (r, r.render_internal size (r.render_d2 zoomLevel exhaust))

/-! ## `Application` (main.cpp) -/

/-- The `ImVec4` of the UI library: four floats `x, y, z, w`. -/
structure ImVec4 where
  x : GLfloat
  y : GLfloat
  z : GLfloat
  w : GLfloat
deriving DecidableEq, Repr

/-- What `glUniform3fv(loc, 1, (float*)&c)` reads from an `ImVec4`: its first
three floats. -/
def ImVec4.first3 (c : ImVec4) : vec3 := ⟨c.x, c.y, c.z⟩

/-- Modelled from the spec: class `camera` (camera.h) is not among the
sources.  The fields are those main.cpp reads or writes: the six movement
flags `w, s, a, d, q, e` (assigned `1` and `0`), `pos`, `rot` and
`zoomLevel`. -/
structure camera where
  w : Int
  s : Int
  a : Int
  d : Int
  q : Int
  e : Int
  pos : vec3
  rot : vec3
  zoomLevel : GLfloat
deriving DecidableEq, Repr

/-- The rendering parameters that `Application` owns (main.cpp lines 71-86). -/
structure AppParams where
  clear_color : ImVec4
  y_color : ImVec4
  z_color : ImVec4
  w_color : ImVec4
  intersect_step_size : GLfloat
  intersect_step_count : Int
  zoom_level : GLfloat
  start_offset : GLfloat
  modulo : Int
  escape_factor : GLfloat
  map_result_factor : GLfloat
  map_iter_count : Int
deriving DecidableEq, Repr

/-- Function `Application::renderBulb` (lines 353-379): the OpenGL calls in program
order.  `width, height` are what `glfwGetFramebufferSize` stores.  The
`lookAt(` call of line 358 is left unfinished in the source, so the matrix
`view` it is meant to produce is a parameter.  The product
`intersect_step_size * mycam.zoomLevel` is the exact one. -/
def renderBulb (p : AppParams) (mycam : camera) (width height : Int) (view : mat4) :
    List GLCmd :=
  [ .clear (GL_COLOR_BUFFER_BIT ||| GL_DEPTH_BUFFER_BIT),
    .bindProgram,
    .uniform2f "resolution" (width : GLfloat) (width : GLfloat),
    .uniform1f "intersectStepSize" (p.intersect_step_size * mycam.zoomLevel),
    .uniform1i "intersectStepCount" p.intersect_step_count,
    .uniform3fv "clearColor" p.clear_color.first3,
    .uniform3fv "yColor" p.y_color.first3,
    .uniform3fv "zColor" p.z_color.first3,
    .uniform3fv "wColor" p.w_color.first3,
    .uniform1f "zoomLevel" mycam.zoomLevel,
    .uniform1f "startOffset" p.start_offset,
    .uniform1i "modulo" p.modulo,
    .uniform1f "escapeFactor" p.escape_factor,
    .uniform1f "mapResultFactor" p.map_result_factor,
    .uniform1i "mapIterCount" p.map_iter_count,
    .uniformMatrix4fv "view" view,
    .unbindProgram ]

/-- The values a call `glUniform2f(.., "resolution", a, b)` in a command list
uploads, in order. -/
def resolutionUploads (cmds : List GLCmd) : List (GLfloat × GLfloat) :=
  cmds.filterMap fun c =>
    match c with
    | .uniform2f "resolution" a b => some (a, b)
    | _ => none

/-! ## The unit-plane vertex data (MandelRenderer.cpp 22-38, main.cpp 319-335) -/

/-- One assignment `ver[verc++] = v`: the state is the array `ver` and the
counter `verc`. -/
def putVer (v : GLfloat) (st : List GLfloat × Nat) : List GLfloat × Nat :=
  (st.1.set st.2 v, st.2 + 1)

/-- Function `MandelRenderer::init`, lines 22-34: `ver0` is the content of the array
that `new GLfloat[6 * 3]` returns, `verc` starts at 0, lines 26-31 make
eighteen assignments `ver[verc++] = ..` in order, and `glBufferData` copies
`6 * 3 * sizeof(float)` bytes, that is `6 * 3` floats, from `ver`.  The result
is the content of the vertex buffer. -/
def MandelRenderer.init (ver0 : List GLfloat) : List GLfloat :=
  let st : List GLfloat × Nat := (ver0, 0)
  let st := st |> putVer 0 |> putVer 0 |> putVer 0
  let st := st |> putVer 1 |> putVer 1 |> putVer 0
  let st := st |> putVer 0 |> putVer 1 |> putVer 0
  let st := st |> putVer 0 |> putVer 0 |> putVer 0
  let st := st |> putVer 1 |> putVer 0 |> putVer 0
  let st := st |> putVer 1 |> putVer 1 |> putVer 0
  st.1.take (6 * 3)

/-- Function `Application::initGeom`, lines 319-331: the same construction in
main.cpp. -/
def initGeom (ver0 : List GLfloat) : List GLfloat :=
  let st : List GLfloat × Nat := (ver0, 0)
  let st := st |> putVer 0 |> putVer 0 |> putVer 0
  let st := st |> putVer 1 |> putVer 1 |> putVer 0
  let st := st |> putVer 0 |> putVer 1 |> putVer 0
  let st := st |> putVer 0 |> putVer 0 |> putVer 0
  let st := st |> putVer 1 |> putVer 0 |> putVer 0
  let st := st |> putVer 1 |> putVer 1 |> putVer 0
  st.1.take (6 * 3)

/-- Vertex `i` of a buffer read with `glVertexAttribPointer(0, 3, GL_FLOAT,
GL_FALSE, 0, 0)`: three consecutive floats, tightly packed. -/
def vertexAt (buf : List GLfloat) (i : Nat) : vec3 :=
  ⟨buf.getD (3 * i) 0, buf.getD (3 * i + 1) 0, buf.getD (3 * i + 2) 0⟩

/-- Triangle `k` of `glDrawArrays(GL_TRIANGLES, 0, ..)`: vertices `3k`,
`3k + 1`, `3k + 2`, in buffer order. -/
def triangleAt (buf : List GLfloat) (k : Nat) : vec3 × vec3 × vec3 :=
  (vertexAt buf (3 * k), vertexAt buf (3 * k + 1), vertexAt buf (3 * k + 2))

/-- Twice the signed area of the triangle `a, b, p` in the xy-plane:
positive when `a, b, p` run counter-clockwise. -/
def edgeFn {K : Type} [LinearOrderedField K] (a b : vec3) (p : K × K) : K :=
  ((b.x : K) - (a.x : K)) * (p.2 - (a.y : K)) - ((b.y : K) - (a.y : K)) * (p.1 - (a.x : K))

/-- The signed area of a triangle in the xy-plane, vertices in the order
given. -/
def signedArea (t : vec3 × vec3 × vec3) : GLfloat :=
  edgeFn t.1 t.2.1 (t.2.2.x, t.2.2.y) / 2

/-- The area of a triangle in the xy-plane. -/
def triangleArea (t : vec3 × vec3 × vec3) : GLfloat := |signedArea t|

/-- The point `p` of the xy-plane lies in the closed triangle `t`: it is on
the same side of (or on) all three edges. -/
def inTriangle {K : Type} [LinearOrderedField K] (t : vec3 × vec3 × vec3) (p : K × K) : Prop :=
  (0 ≤ edgeFn t.1 t.2.1 p ∧ 0 ≤ edgeFn t.2.1 t.2.2 p ∧ 0 ≤ edgeFn t.2.2 t.1 p) ∨
  (edgeFn t.1 t.2.1 p ≤ 0 ∧ edgeFn t.2.1 t.2.2 p ≤ 0 ∧ edgeFn t.2.2 t.1 p ≤ 0)

/-- The point `p` lies in the interior of the triangle `t`: strictly on the
same side of all three edges. -/
def inInterior {K : Type} [LinearOrderedField K] (t : vec3 × vec3 × vec3) (p : K × K) : Prop :=
  (0 < edgeFn t.1 t.2.1 p ∧ 0 < edgeFn t.2.1 t.2.2 p ∧ 0 < edgeFn t.2.2 t.1 p) ∨
  (edgeFn t.1 t.2.1 p < 0 ∧ edgeFn t.2.1 t.2.2 p < 0 ∧ edgeFn t.2.2 t.1 p < 0)

/-- The eighteen floats of the unit plane: two triangles, three floats per
vertex. -/
def unitPlaneFloats : List GLfloat :=
  [0, 0, 0,  1, 1, 0,  0, 1, 0,  0, 0, 0,  1, 0, 0,  1, 1, 0]

/-! ## Input callbacks of `Application` (main.cpp 108-226) -/

/-- The value of `GLFW_RELEASE`. -/
abbrev GLFW_RELEASE : Int := 0
/-- The value of `GLFW_PRESS`. -/
abbrev GLFW_PRESS : Int := 1
/-- The value of `GLFW_REPEAT`. -/
abbrev GLFW_REPEAT : Int := 2
/-- The value of `GLFW_KEY_A`. -/
abbrev GLFW_KEY_A : Int := 65
/-- The value of `GLFW_KEY_D`. -/
abbrev GLFW_KEY_D : Int := 68
/-- The value of `GLFW_KEY_E`. -/
abbrev GLFW_KEY_E : Int := 69
/-- The value of `GLFW_KEY_O`. -/
abbrev GLFW_KEY_O : Int := 79
/-- The value of `GLFW_KEY_Q`. -/
abbrev GLFW_KEY_Q : Int := 81
/-- The value of `GLFW_KEY_S`. -/
abbrev GLFW_KEY_S : Int := 83
/-- The value of `GLFW_KEY_W`. -/
abbrev GLFW_KEY_W : Int := 87
/-- The value of `GLFW_KEY_ESCAPE`. -/
abbrev GLFW_KEY_ESCAPE : Int := 256
/-- The value of `GLFW_KEY_LEFT_SHIFT`. -/
abbrev GLFW_KEY_LEFT_SHIFT : Int := 340
/-- The value of `GLFW_KEY_LEFT_CONTROL`. -/
abbrev GLFW_KEY_LEFT_CONTROL : Int := 341
/-- The value of `GLFW_KEY_LEFT_ALT`. -/
abbrev GLFW_KEY_LEFT_ALT : Int := 342
/-- The value of `GLFW_KEY_LEFT_SUPER`. -/
abbrev GLFW_KEY_LEFT_SUPER : Int := 343
/-- The value of `GLFW_KEY_RIGHT_SHIFT`. -/
abbrev GLFW_KEY_RIGHT_SHIFT : Int := 344
/-- The value of `GLFW_KEY_RIGHT_CONTROL`. -/
abbrev GLFW_KEY_RIGHT_CONTROL : Int := 345
/-- The value of `GLFW_KEY_RIGHT_ALT`. -/
abbrev GLFW_KEY_RIGHT_ALT : Int := 346
/-- The value of `GLFW_KEY_RIGHT_SUPER`. -/
abbrev GLFW_KEY_RIGHT_SUPER : Int := 347
/-- The value of `GLFW_MOUSE_BUTTON_RIGHT`. -/
abbrev GLFW_MOUSE_BUTTON_RIGHT : Int := 1

/-- The part of `ImGuiIO` (UI library) that the callbacks touch.
`KeysDown` is indexed by key code.  `WantCaptureKeyboard` and
`WantCaptureMouse` are how the panel reports that it wants the keyboard,
respectively the mouse, for itself; the callbacks only read them. -/
structure ImGuiIO where
  KeysDown : Int → Bool
  KeyCtrl : Bool
  KeyShift : Bool
  KeyAlt : Bool
  KeySuper : Bool
  WantCaptureKeyboard : Bool
  WantCaptureMouse : Bool

/-- The state the input callbacks of `Application` read and write: the
members `mycam`, `aiming`, `prevX`, `prevY`, the `io` of the UI library, the
just-pressed marks that `ImGui_ImpGlfw_SetMouseJustPressed` sets, and the
should-close flag of the window that `glfwSetWindowShouldClose` sets. -/
structure AppState where
  mycam : camera
  aiming : Bool
  prevX : double
  prevY : double
  io : ImGuiIO
  mouseJustPressed : Int → Bool
  windowShouldClose : Bool

/-- Function `Application::keyCallback` (lines 108-189).  `eyepos` is the value of
`look * vec4(0, 0, 0, 1)` for the `lookAt` matrix of lines 180-184 (computed
by the glm library). -/
def keyCallback (eyepos : vec4) (st : AppState) (key scancode action mods : Int) : AppState :=
  let io := st.io
  let io := if action = GLFW_PRESS then
      { io with KeysDown := Function.update io.KeysDown key true } else io
  let io := if action = GLFW_RELEASE then
      { io with KeysDown := Function.update io.KeysDown key false } else io
  let io := { io with
    KeyCtrl := (io.KeysDown GLFW_KEY_LEFT_CONTROL || io.KeysDown GLFW_KEY_RIGHT_CONTROL) }
  let io := { io with
    KeyShift := (io.KeysDown GLFW_KEY_LEFT_SHIFT || io.KeysDown GLFW_KEY_RIGHT_SHIFT) }
  let io := { io with
    KeyAlt := (io.KeysDown GLFW_KEY_LEFT_ALT || io.KeysDown GLFW_KEY_RIGHT_ALT) }
  let io := { io with
    KeySuper := (io.KeysDown GLFW_KEY_LEFT_SUPER || io.KeysDown GLFW_KEY_RIGHT_SUPER) }
  let st := { st with io := io }
  if io.WantCaptureKeyboard then st
  else
    let st := if key = GLFW_KEY_ESCAPE ∧ action = GLFW_PRESS then
        { st with windowShouldClose := true } else st
    let mycam := st.mycam
    let mycam := if key = GLFW_KEY_W ∧ action = GLFW_PRESS then { mycam with w := 1 } else mycam
    let mycam := if key = GLFW_KEY_W ∧ action = GLFW_RELEASE then { mycam with w := 0 } else mycam
    let mycam := if key = GLFW_KEY_S ∧ action = GLFW_PRESS then { mycam with s := 1 } else mycam
    let mycam := if key = GLFW_KEY_S ∧ action = GLFW_RELEASE then { mycam with s := 0 } else mycam
    let mycam := if key = GLFW_KEY_A ∧ action = GLFW_PRESS then { mycam with a := 1 } else mycam
    let mycam := if key = GLFW_KEY_A ∧ action = GLFW_RELEASE then { mycam with a := 0 } else mycam
    let mycam := if key = GLFW_KEY_D ∧ action = GLFW_PRESS then { mycam with d := 1 } else mycam
    let mycam := if key = GLFW_KEY_D ∧ action = GLFW_RELEASE then { mycam with d := 0 } else mycam
    let mycam := if key = GLFW_KEY_Q ∧ action = GLFW_PRESS then { mycam with q := 1 } else mycam
    let mycam := if key = GLFW_KEY_Q ∧ action = GLFW_RELEASE then { mycam with q := 0 } else mycam
    let mycam := if key = GLFW_KEY_E ∧ action = GLFW_PRESS then { mycam with e := 1 } else mycam
    let mycam := if key = GLFW_KEY_E ∧ action = GLFW_RELEASE then { mycam with e := 0 } else mycam
    let mycam := if key = GLFW_KEY_O ∧ action = GLFW_PRESS then
        { mycam with pos := ⟨eyepos.x, eyepos.y, eyepos.z⟩, rot := ⟨0, 0, 0⟩ } else mycam
    { st with mycam := mycam }

/-- Function `Application::mouseCallback` (lines 193-203).  `cursor` is the position
that `glfwGetCursorPos` stores into `prevX, prevY`. -/
def mouseCallback (cursor : double × double) (st : AppState) (button action mods : Int) :
    AppState :=
  let st := if action = GLFW_PRESS ∧ button ≥ 0 ∧ button < 3 then
      { st with mouseJustPressed := Function.update st.mouseJustPressed button true } else st
  if button = GLFW_MOUSE_BUTTON_RIGHT then
    { st with aiming := decide (action = GLFW_PRESS), prevX := cursor.1, prevY := cursor.2 }
  else st

/-- Function `Application::cursorPosCallback` (lines 212-226).  `w, h` are what
`glfwGetFramebufferSize` stores; `rotate` is `camera::rotate` (camera.h is not
among the sources), as a function from the camera before the call and the two
arguments to the camera after it.  The quotients are the exact ones. -/
def cursorPosCallback (rotate : camera → double → double → camera) (w h : Int)
    (st : AppState) (x y : double) : AppState :=
  if !st.aiming then st
  else
    let dX : double := (st.prevX - x) / (w : double)
    let dY : double := (st.prevY - y) / (h : double)
    let st := { st with prevX := x }
    let st := { st with prevY := y }
    { st with mycam := rotate st.mycam dX dY }

/-- The six movement keys. -/
def movementKeys : List Int :=
  [GLFW_KEY_W, GLFW_KEY_S, GLFW_KEY_A, GLFW_KEY_D, GLFW_KEY_Q, GLFW_KEY_E]

/-! ## Sequences of mouse events -/

/-- A mouse event as the window system delivers it, together with what the
callback reads from the window while handling it: `cursor` is the position
`glfwGetCursorPos` returns during a button event, `w, h` the size
`glfwGetFramebufferSize` returns during a cursor event. -/
inductive InputEvent where
  | mouseButton (cursor : double × double) (button action mods : Int)
  | cursorPos (w h : Int) (x y : double)

/-- Handling of one mouse event: `mouseCallback` for a button event,
`cursorPosCallback` for a cursor event. -/
def deliver (rotate : camera → double → double → camera) (st : AppState) :
    InputEvent → AppState
  | .mouseButton cursor button action mods => mouseCallback cursor st button action mods
  | .cursorPos w h x y => cursorPosCallback rotate w h st x y

/-- Handling of a sequence of mouse events, first to last. -/
def deliverAll (rotate : camera → double → double → camera) (st : AppState)
    (evs : List InputEvent) : AppState :=
  evs.foldl (deliver rotate) st

/-- The actions of the right-button events of a sequence, in order. -/
def rightButtonActions (evs : List InputEvent) : List Int :=
  evs.filterMap fun e =>
    match e with
    | .mouseButton _ button action _ =>
        if button = GLFW_MOUSE_BUTTON_RIGHT then some action else none
    | .cursorPos _ _ _ _ => none

/-- The look gesture, in the words of the specification: it is active after
a sequence of events when the most recent right-button event was a press;
when there was no right-button event it is as it was at the start. -/
def gestureActive (atStart : Bool) (evs : List InputEvent) : Bool :=
  match (rightButtonActions evs).getLast? with
  | some action => decide (action = GLFW_PRESS)
  | none => atStart

/-- The calls of the rotate operation that the specification allows for a
sequence of events, in order, given whether the gesture is `active` and the
recorded cursor position `prev` at the start: a cursor event `(x, y)` while
the gesture is active yields the call `((prev.1 - x) / w, (prev.2 - y) / h)`
and records `(x, y)`; a right-button event records the cursor position and
makes the gesture active exactly when it is a press; nothing else yields a
call or records a position. -/
def rotateCalls (active : Bool) (prev : double × double) :
    List InputEvent → List (double × double)
  | [] => []
  | .mouseButton cursor button action _ :: evs =>
      if button = GLFW_MOUSE_BUTTON_RIGHT then
        rotateCalls (decide (action = GLFW_PRESS)) cursor evs
      else rotateCalls active prev evs
  | .cursorPos w h x y :: evs =>
      if active then
        ((prev.1 - x) / (w : double), (prev.2 - y) / (h : double)) :: rotateCalls true (x, y) evs
      else rotateCalls false prev evs

/-- The recorded cursor position that the specification describes, after a
sequence of events: the position of the most recent cursor event that arrived
while the gesture was active or, if a right-button event came later, the
cursor position at that button event. -/
def recordedCursor (active : Bool) (prev : double × double) :
    List InputEvent → double × double
  | [] => prev
  | .mouseButton cursor button action _ :: evs =>
      if button = GLFW_MOUSE_BUTTON_RIGHT then
        recordedCursor (decide (action = GLFW_PRESS)) cursor evs
      else recordedCursor active prev evs
  | .cursorPos _ _ x y :: evs =>
      if active then recordedCursor true (x, y) evs else recordedCursor false prev evs

/-! ## The control panel (main.cpp 71-86, 475-495) -/

/-- The variables that the sliders of `doImgui` point to. -/
inductive SliderTarget where
  | start_offset
  | zoomLevel
  | intersect_step_size
  | intersect_step_count
  | modulo
  | escape_factor
  | map_result_factor
  | map_iter_count
deriving DecidableEq, Repr

/-- The colours that the colour editors of `doImgui` point to. -/
inductive ColorTarget where
  | clear_color
  | y_color
  | z_color
  | w_color
deriving DecidableEq, Repr

/-- The widget calls of `doImgui`, with the arguments the source passes. -/
inductive Widget where
  | Text (fmt : String)
  | ColorEdit3 (label : String) (col : ColorTarget)
  | SliderFloat (label : String) (v : SliderTarget) (v_min v_max : GLfloat)
      (format : String) (power : GLfloat)
  | SliderInt (label : String) (v : SliderTarget) (v_min v_max : Int)
deriving DecidableEq, Repr

/-- Function `Application::doImgui` (lines 475-495): the widgets between
`ImGui::Begin` and `ImGui::End`, in order.  The float literals are the
decimals written in the source. -/
def doImgui : List Widget :=
  [ .Text "Mandelbulb controls",
    .ColorEdit3 "clear color" .clear_color,
    .ColorEdit3 "y color" .y_color,
    .ColorEdit3 "z color" .z_color,
    .ColorEdit3 "w color" .w_color,
    .SliderFloat "mapping start offset" .start_offset (2 / 1000) 30 "%.3f" (12 / 10),
    .SliderFloat "zoom level" .zoomLevel (2 / 1000) 30 "%.3f" (12 / 10),
    .SliderFloat "intersect step size" .intersect_step_size (1 / 10 ^ 20) (1 / 10) "%.3e" (15 / 10),
    .SliderInt "intersect step count" .intersect_step_count 1 1024,
    .SliderInt "Mandelbulb modulo" .modulo 2 32,
    .SliderFloat "Mandelbulb escape factor" .escape_factor (1 / 100) 10 "%.3f" (42 / 10),
    .SliderFloat "Mandelbulb map result factor" .map_result_factor (1 / 100) 10 "%.3f" (42 / 10),
    .SliderInt "Mandelbulb map iter count" .map_iter_count 1 32,
    .Text "Application average %.3f ms/frame (%.1f FPS)" ]

/-- What a slider can do (the widget library is outside the repository): a
float slider can assign to its variable any value from `v_min` to `v_max`, an
integer slider any integer from `v_min` to `v_max`; other widgets assign to no
slider variable. -/
def Widget.canAssign (wd : Widget) (t : SliderTarget) (value : GLfloat) : Prop :=
  match wd with
  | .SliderFloat _ v v_min v_max _ _ => v = t ∧ v_min ≤ value ∧ value ≤ v_max
  | .SliderInt _ v v_min v_max => v = t ∧ ∃ n : Int, value = (n : GLfloat) ∧ v_min ≤ n ∧ n ≤ v_max
  | _ => False

/-- The invariants that the data model of the specification states for the
fields the sliders edit: zoom level, step size, start offset, escape factor
and map result factor are positive, the step count is from 1 to 1024, the
modulo is at least 2, the map iteration count at least 1. -/
def dataModelInvariant : SliderTarget → GLfloat → Prop
  | .start_offset, v => 0 < v
  | .zoomLevel, v => 0 < v
  | .intersect_step_size, v => 0 < v
  | .intersect_step_count, v => 1 ≤ v ∧ v ≤ 1024
  | .modulo, v => 2 ≤ v
  | .escape_factor, v => 0 < v
  | .map_result_factor, v => 0 < v
  | .map_iter_count, v => 1 ≤ v

/-- The member initialisers of `Application`, main.cpp lines 71-86. -/
def applicationDefaults : AppParams where
  clear_color := ⟨45 / 100, 55 / 100, 60 / 100, 1⟩
  y_color := ⟨10 / 100, 20 / 100, 30 / 100, 1⟩
  z_color := ⟨2 / 100, 10 / 100, 30 / 100, 1⟩
  w_color := ⟨30 / 100, 10 / 100, 2 / 100, 1⟩
  intersect_step_size := 25 / 10000
  intersect_step_count := 128
  zoom_level := 1
  start_offset := 1
  modulo := 8
  escape_factor := 1
  map_result_factor := 1
  map_iter_count := 4

/-- The default of `Application` for the quantity a slider edits.  The zoom
slider points to `mycam.zoomLevel`; the default of `Application` for the zoom
level is its member `zoom_level`. -/
def defaultOf (p : AppParams) : SliderTarget → GLfloat
  | .start_offset => p.start_offset
  | .zoomLevel => p.zoom_level
  | .intersect_step_size => p.intersect_step_size
  | .intersect_step_count => (p.intersect_step_count : GLfloat)
  | .modulo => (p.modulo : GLfloat)
  | .escape_factor => p.escape_factor
  | .map_result_factor => p.map_result_factor
  | .map_iter_count => (p.map_iter_count : GLfloat)

/-! ## `WindowManager` (WindowManager.cpp 54-72, 149-189) -/

/-- The line the constructor writes to `cerr` when an instance exists. -/
def secondInstanceLine : String :=
  "One instance of WindowManager has already been created, event callbacks of new instance will not work."

/-- The memory the `WindowManager` code reads and writes.  Objects are named
by their address.  `instance_` is the static `WindowManager::instance`
(`none` for `nullptr`), `callbacks` gives the member `callbacks` of the
`WindowManager` at each address (`none` for `nullptr`), `cerr` the lines
written so far. -/
structure WMWorld where
  instance_ : Option Nat
  callbacks : Nat → Option Nat
  cerr : List String

/-- A call that a static callback of `WindowManager` makes on an
`EventCallbacks` object. -/
inductive CallbackCall where
  | keyCallback (window : Nat) (key scancode action mods : Int)
  | mouseCallback (window : Nat) (button action mods : Int)
  | resizeCallback (window : Nat) (in_width in_height : Int)
  | cursorPosCallback (window : Nat) (x y : double)
deriving DecidableEq, Repr

/-- Constructor `WindowManager::WindowManager()` (lines 56-64) run for the
object at address `this`. -/
def WindowManager.construct (this : Nat) (wld : WMWorld) : WMWorld :=
  let wld := if wld.instance_.isSome then
      { wld with cerr := wld.cerr ++ [secondInstanceLine] } else wld
  { wld with instance_ := some this }

/-- Destructor `WindowManager::~WindowManager()` (lines 66-72). -/
def WindowManager.destruct (this : Nat) (wld : WMWorld) : WMWorld :=
  if wld.instance_ = some this then { wld with instance_ := none } else wld

/-- Function `WindowManager::setEventCallbacks` (lines 149-152). -/
def WindowManager.setEventCallbacks (this : Nat) (callbacks_in : Option Nat) (wld : WMWorld) :
    WMWorld :=
  { wld with callbacks := Function.update wld.callbacks this callbacks_in }

/-- Function `WindowManager::key_callback` (lines 159-165): under the guard
`instance && instance->callbacks`, the receiving `EventCallbacks` object and
the call made on it; `none` when no call is made. -/
def WindowManager.key_callback (wld : WMWorld) (window : Nat) (key scancode action mods : Int) :
    Option (Nat × CallbackCall) :=
  match wld.instance_ with
  | some i =>
    match wld.callbacks i with
    | some cb => some (cb, .keyCallback window key scancode action mods)
    | none => none
  | none => none

/-- Function `WindowManager::mouse_callback` (lines 167-173). -/
def WindowManager.mouse_callback (wld : WMWorld) (window : Nat) (button action mods : Int) :
    Option (Nat × CallbackCall) :=
  match wld.instance_ with
  | some i =>
    match wld.callbacks i with
    | some cb => some (cb, .mouseCallback window button action mods)
    | none => none
  | none => none

/-- Function `WindowManager::resize_callback` (lines 175-181). -/
def WindowManager.resize_callback (wld : WMWorld) (window : Nat) (in_width in_height : Int) :
    Option (Nat × CallbackCall) :=
  match wld.instance_ with
  | some i =>
    match wld.callbacks i with
    | some cb => some (cb, .resizeCallback window in_width in_height)
    | none => none
  | none => none

/-- Function `WindowManager::cursorPos_callback` (lines 183-189). -/
def WindowManager.cursorPos_callback (wld : WMWorld) (window : Nat) (x y : double) :
    Option (Nat × CallbackCall) :=
  match wld.instance_ with
  | some i =>
    match wld.callbacks i with
    | some cb => some (cb, .cursorPosCallback window x y)
    | none => none
  | none => none

/-! ## Face culling (main.cpp 241-243) -/

/-- The value of `GL_CW`. -/
abbrev GL_CW : Nat := 0x0900
/-- The value of `GL_CCW`. -/
abbrev GL_CCW : Nat := 0x0901

/-- The culling state of the graphics context: whether `GL_CULL_FACE` is
enabled and the winding that `glFrontFace` declared as front. -/
structure CullState where
  cullFaceEnabled : Bool
  frontFace : Nat
deriving DecidableEq, Repr

/-- The culling state that `Application::init` sets up in lines 241-243:
`glEnable(GL_CULL_FACE); glFrontFace(GL_CCW);`. -/
def Application.initCulling : CullState := ⟨true, GL_CCW⟩

/-- A triangle of the xy-plane is a back face when its winding is opposite to
the one declared as front: with `GL_CCW` its signed area is not positive,
with `GL_CW` not negative. -/
def isBackFace (cs : CullState) (t : vec3 × vec3 × vec3) : Prop :=
  if cs.frontFace = GL_CCW then signedArea t ≤ 0 else 0 ≤ signedArea t

/-! ## Concrete inputs used by the evaluations below -/

/-- A parameter set whose scalar fields are pairwise different. -/
def sampleData : RenderData where
  clear_color := ⟨9 / 20, 11 / 20, 3 / 5⟩
  y_color := ⟨1 / 10, 1 / 5, 3 / 10⟩
  z_color := ⟨1 / 50, 1 / 10, 3 / 10⟩
  w_color := ⟨3 / 10, 1 / 10, 1 / 50⟩
  diff1 := ⟨1, 0, 0⟩
  diff2 := ⟨0, 1, 0⟩
  diff3 := ⟨0, 0, 1⟩
  intersect_step_size := 1 / 400
  intersect_step_count := 128
  zoom_level := 2
  start_offset := 3
  modulo := 8
  iTest := 0
  escape_factor := 5
  map_result_factor := 7
  map_iter_count := 4
  juliaFactor := 1 / 2
  juliaPoint := ⟨0, 0, 0⟩
  exhaust := false

/-- A renderer holding `sampleData`, with vertex array 1 and buffer 1. -/
def sampleRenderer : MandelRenderer := ⟨sampleData, 1, 1⟩

/-- The `Application` parameter defaults of main.cpp lines 71-86. -/
def sampleParams : AppParams where
  clear_color := ⟨9 / 20, 11 / 20, 3 / 5, 1⟩
  y_color := ⟨1 / 10, 1 / 5, 3 / 10, 1⟩
  z_color := ⟨1 / 50, 1 / 10, 3 / 10, 1⟩
  w_color := ⟨3 / 10, 1 / 10, 1 / 50, 1⟩
  intersect_step_size := 1 / 400
  intersect_step_count := 128
  zoom_level := 1
  start_offset := 1
  modulo := 8
  escape_factor := 1
  map_result_factor := 1
  map_iter_count := 4

/-- A camera at rest at the origin with zoom 1. -/
def sampleCamera : camera := ⟨0, 0, 0, 0, 0, 0, ⟨0, 0, 0⟩, ⟨0, 0, 0⟩, 1⟩

/-- A UI state with no key down in which the panel wants neither keyboard nor
mouse. -/
def idleIO : ImGuiIO := ⟨fun _ => false, false, false, false, false, false, false⟩

/-- The application as constructed (`aiming = false`, `prevX = prevY = -1`),
with the camera at rest and the panel idle. -/
def idleApp : AppState := ⟨sampleCamera, false, -1, -1, idleIO, fun _ => false, false⟩

/-- The application as constructed, while the panel wants both the keyboard
and the mouse. -/
def panelFocusedApp : AppState :=
  { idleApp with io := { idleIO with WantCaptureKeyboard := true, WantCaptureMouse := true } }

/-- A stand-in for `camera::rotate` that adds the two arguments to the
rotation accumulators. -/
def addRotation (c : camera) (dx dy : double) : camera :=
  { c with rot := ⟨c.rot.x + dy, c.rot.y + dx, c.rot.z⟩ }

/-- A world with no `WindowManager` yet and nothing written. -/
def emptyWorld : WMWorld := ⟨none, fun _ => none, []⟩

/-- Two `WindowManager` objects, at addresses 1 and 2, constructed in this
order, each right away given its own `EventCallbacks` object, at addresses 10
and 20. -/
def twoManagers : WMWorld :=
  emptyWorld
    |> WindowManager.construct 1
    |> WindowManager.setEventCallbacks 1 (some 10)
    |> WindowManager.construct 2
    |> WindowManager.setEventCallbacks 2 (some 20)

/-- Two `WindowManager` objects constructed as in `twoManagers`, the second
without callbacks of its own. -/
def twoManagersOneListener : WMWorld :=
  emptyWorld
    |> WindowManager.construct 1
    |> WindowManager.setEventCallbacks 1 (some 10)
    |> WindowManager.construct 2

/-! ## Theorems -/

/-- Membership in `faces` spelled out. -/
lemma mem_faces (dir : Int) :
    dir ∈ faces ↔ dir = 0 ∨ dir = 1 ∨ dir = 2 ∨ dir = 3 ∨ dir = 4 ∨ dir = 5 := by
  simp [faces]

/-- C1: for each of the six faces, forward and up (as returned by
`dirEnumToDirection` and `dirEnumToUp`) have dot product exactly 0, up is not
the zero vector, and the cross product of their xyz parts is not zero, so up
is not parallel to forward. -/
theorem face_basis_orthogonal (dir : Int) (h : dir ∈ faces) :
    (dirEnumToDirection dir).1.dot (dirEnumToUp dir).1 = 0 ∧
    (dirEnumToUp dir).1 ≠ ⟨0, 0, 0, 0⟩ ∧
    (dirEnumToDirection dir).1.cross3 (dirEnumToUp dir).1 ≠ ⟨0, 0, 0⟩ := by
  rw [mem_faces] at h
  rcases h with h | h | h | h | h | h <;> subst h <;>
    simp [dirEnumToDirection, dirEnumToUp, vec4.dot, vec4.cross3]

/-- Witness of C1 at the face `TOP`. -/
theorem face_basis_orthogonal_witness :
    TOP ∈ faces ∧
    (dirEnumToDirection TOP).1.dot (dirEnumToUp TOP).1 = 0 ∧
    (dirEnumToUp TOP).1 ≠ ⟨0, 0, 0, 0⟩ ∧
    (dirEnumToDirection TOP).1.cross3 (dirEnumToUp TOP).1 ≠ ⟨0, 0, 0⟩ :=
  ⟨by decide, face_basis_orthogonal TOP (by decide)⟩

/-- C2: the forward vectors of the six faces are pairwise distinct, they are
exactly the six signed axis directions, and every vector that
`dirEnumToDirection` or `dirEnumToUp` returns is a unit axis vector with
`w = 0`. -/
theorem face_forward_axes :
    (faces.map fun d => (dirEnumToDirection d).1).Nodup ∧
    (∀ v : vec4, v ∈ (faces.map fun d => (dirEnumToDirection d).1) ↔ v ∈ signedAxes) ∧
    (∀ dir : Int, (dirEnumToDirection dir).1.isUnitAxis ∧ (dirEnumToUp dir).1.isUnitAxis) := by
  refine ⟨by decide, ?_, ?_⟩
  · intro v
    simp only [faces, signedAxes, dirEnumToDirection, List.map, List.mem_cons,
      List.mem_singleton, List.not_mem_nil, or_false]
    simp
    tauto
  · intro dir
    unfold dirEnumToDirection dirEnumToUp vec4.isUnitAxis
    constructor <;> split_ifs <;> simp

/-- C3: for every `dir` outside `0..5` both lookups return what they return
for `FRONT`, each writing one diagnostic line; for every `dir` whatsoever a
diagnostic line is written exactly when `dir` is outside `0..5`.  Both
lookups are total functions, so no input makes them fail. -/
theorem invalid_dir_falls_back_to_front (dir : Int) (h : dir < 0 ∨ 5 < dir) :
    (dirEnumToDirection dir).1 = (dirEnumToDirection FRONT).1 ∧
    (dirEnumToUp dir).1 = (dirEnumToUp FRONT).1 ∧
    (dirEnumToDirection dir).2 = [invalidDirectionLine dir] ∧
    (dirEnumToUp dir).2 = [invalidDirectionLine dir] ∧
    (∀ d : Int, (dirEnumToDirection d).2 ≠ [] ↔ (d < 0 ∨ 5 < d)) ∧
    (∀ d : Int, (dirEnumToUp d).2 ≠ [] ↔ (d < 0 ∨ 5 < d)) := by
  have h0 : dir ≠ 0 := by omega
  have h1 : dir ≠ 1 := by omega
  have h2 : dir ≠ 2 := by omega
  have h3 : dir ≠ 3 := by omega
  have h4 : dir ≠ 4 := by omega
  have h5 : dir ≠ 5 := by omega
  refine ⟨?_, ?_, ?_, ?_, ?_, ?_⟩
  · simp [dirEnumToDirection, h0, h1, h2, h3, h4, h5]
  · simp [dirEnumToUp, h0, h1, h2, h3, h4, h5]
  · simp [dirEnumToDirection, h0, h1, h2, h3, h4, h5]
  · simp [dirEnumToUp, h0, h1, h2, h3, h4, h5]
  · intro d
    simp only [dirEnumToDirection, TOP, BOTTOM, LEFT, RIGHT, FRONT, BACK]
    split_ifs <;> simp <;> omega
  · intro d
    simp only [dirEnumToUp, TOP, BOTTOM, LEFT, RIGHT, FRONT, BACK]
    split_ifs <;> simp <;> omega

/-- Witness of C3 at `dir = NUM_SIDES`. -/
theorem invalid_dir_falls_back_to_front_witness :
    (dirEnumToDirection NUM_SIDES).1 = (dirEnumToDirection FRONT).1 ∧
    (dirEnumToUp NUM_SIDES).1 = (dirEnumToUp FRONT).1 ∧
    (dirEnumToDirection NUM_SIDES).2 = [invalidDirectionLine NUM_SIDES] :=
  have h := invalid_dir_falls_back_to_front NUM_SIDES (Or.inr (by decide))
  ⟨h.1, h.2.1, h.2.2.1⟩

/-- Truncation of an integral float gives that integer back. -/
lemma toGLint_intCast (n : Int) : toGLint (n : GLfloat) = n := by
  simp [toGLint]

/-- C4: `render` calls `render_internal` with the copy `d2`, whose
`zoom_level` and `exhaust` are the arguments of `render` and whose every other
field is that of the live `data`; the renderer, its `data` included, is the
same after the call. -/
theorem render_hands_stamped_copy (r : MandelRenderer) (zoomLevel : GLfloat) (size : vec2)
    (exhaust : Bool) :
    (r.render zoomLevel size exhaust).2
        = r.render_internal size (r.render_d2 zoomLevel exhaust) ∧
    (r.render_d2 zoomLevel exhaust).zoom_level = zoomLevel ∧
    (r.render_d2 zoomLevel exhaust).exhaust = exhaust ∧
    (r.render_d2 zoomLevel exhaust).clear_color = r.data.clear_color ∧
    (r.render_d2 zoomLevel exhaust).y_color = r.data.y_color ∧
    (r.render_d2 zoomLevel exhaust).z_color = r.data.z_color ∧
    (r.render_d2 zoomLevel exhaust).w_color = r.data.w_color ∧
    (r.render_d2 zoomLevel exhaust).diff1 = r.data.diff1 ∧
    (r.render_d2 zoomLevel exhaust).diff2 = r.data.diff2 ∧
    (r.render_d2 zoomLevel exhaust).diff3 = r.data.diff3 ∧
    (r.render_d2 zoomLevel exhaust).intersect_step_size = r.data.intersect_step_size ∧
    (r.render_d2 zoomLevel exhaust).intersect_step_count = r.data.intersect_step_count ∧
    (r.render_d2 zoomLevel exhaust).start_offset = r.data.start_offset ∧
    (r.render_d2 zoomLevel exhaust).modulo = r.data.modulo ∧
    (r.render_d2 zoomLevel exhaust).iTest = r.data.iTest ∧
    (r.render_d2 zoomLevel exhaust).escape_factor = r.data.escape_factor ∧
    (r.render_d2 zoomLevel exhaust).map_result_factor = r.data.map_result_factor ∧
    (r.render_d2 zoomLevel exhaust).map_iter_count = r.data.map_iter_count ∧
    (r.render_d2 zoomLevel exhaust).juliaFactor = r.data.juliaFactor ∧
    (r.render_d2 zoomLevel exhaust).juliaPoint = r.data.juliaPoint ∧
    (r.render zoomLevel size exhaust).1 = r ∧
    (r.render zoomLevel size exhaust).1.data = r.data := by
  simp [MandelRenderer.render, MandelRenderer.render_d2]

/-- C5, as stated, fails: at `sampleData` no command of `render_internal`
uploads to an input named `intersectStepSize`, `startOffset`, `escapeFactor`
or `mapResultFactor`, and no float upload under any name carries the value of
one of these four fields. -/
theorem render_internal_omits_four_fields :
    "intersectStepSize" ∉
        (sampleRenderer.render_internal ⟨64, 48⟩ sampleData).filterMap GLCmd.uniformName ∧
    "startOffset" ∉
        (sampleRenderer.render_internal ⟨64, 48⟩ sampleData).filterMap GLCmd.uniformName ∧
    "escapeFactor" ∉
        (sampleRenderer.render_internal ⟨64, 48⟩ sampleData).filterMap GLCmd.uniformName ∧
    "mapResultFactor" ∉
        (sampleRenderer.render_internal ⟨64, 48⟩ sampleData).filterMap GLCmd.uniformName ∧
    ¬ (∃ name, GLCmd.uniform1f name sampleData.intersect_step_size
        ∈ sampleRenderer.render_internal ⟨64, 48⟩ sampleData) ∧
    ¬ (∃ name, GLCmd.uniform1f name sampleData.start_offset
        ∈ sampleRenderer.render_internal ⟨64, 48⟩ sampleData) ∧
    ¬ (∃ name, GLCmd.uniform1f name sampleData.escape_factor
        ∈ sampleRenderer.render_internal ⟨64, 48⟩ sampleData) ∧
    ¬ (∃ name, GLCmd.uniform1f name sampleData.map_result_factor
        ∈ sampleRenderer.render_internal ⟨64, 48⟩ sampleData) := by
  refine ⟨by decide, by decide, by decide, by decide, ?_, ?_, ?_, ?_⟩ <;>
    simp [MandelRenderer.render_internal, sampleData] <;> norm_num

/-- C5, amended: for every parameter set, `render_internal` uploads exactly
one value to each of the inputs `resolution, intersectStepCount, clearColor,
yColor, zColor, wColor, diffc1, diffc2, diffc3, viewscale, modulo, iTest,
juliaFactor, juliaPoint, mapIterCount, exhaust`, and to no other input; the
value uploaded for the fields zoomLevel (input `viewscale`),
intersectStepCount, clearColor, yColor, zColor, wColor, modulo, mapIterCount,
juliaFactor, juliaPoint and exhaust (as 0 or 1) is the value of that field in
the parameter set given. -/
theorem render_internal_uploads (r : MandelRenderer) (size : vec2) (dat : RenderData) :
    (r.render_internal size dat).filterMap GLCmd.uniformName =
      ["resolution", "intersectStepCount", "clearColor", "yColor", "zColor", "wColor",
       "diffc1", "diffc2", "diffc3", "viewscale", "modulo", "iTest", "juliaFactor",
       "juliaPoint", "mapIterCount", "exhaust"] ∧
    GLCmd.uniform1f "viewscale" dat.zoom_level ∈ r.render_internal size dat ∧
    GLCmd.uniform1i "intersectStepCount" dat.intersect_step_count
        ∈ r.render_internal size dat ∧
    GLCmd.uniform3fv "clearColor" dat.clear_color ∈ r.render_internal size dat ∧
    GLCmd.uniform3fv "yColor" dat.y_color ∈ r.render_internal size dat ∧
    GLCmd.uniform3fv "zColor" dat.z_color ∈ r.render_internal size dat ∧
    GLCmd.uniform3fv "wColor" dat.w_color ∈ r.render_internal size dat ∧
    GLCmd.uniform1i "modulo" dat.modulo ∈ r.render_internal size dat ∧
    GLCmd.uniform1i "mapIterCount" dat.map_iter_count ∈ r.render_internal size dat ∧
    GLCmd.uniform1f "juliaFactor" dat.juliaFactor ∈ r.render_internal size dat ∧
    GLCmd.uniform3fv "juliaPoint" dat.juliaPoint ∈ r.render_internal size dat ∧
    GLCmd.uniform1i "exhaust" (boolToGLint dat.exhaust) ∈ r.render_internal size dat := by
  refine ⟨rfl, ?_, ?_, ?_, ?_, ?_, ?_, ?_, ?_, ?_, ?_, ?_⟩ <;>
    simp [MandelRenderer.render_internal]

/-- C6: `render_internal` uploads exactly one `resolution`, namely
`(size.x, size.y)`, and its first command sets the viewport to the same size
(converted to integers; for a whole-numbered size the very same numbers);
`renderBulb` uploads `(width, width)` whatever the height: with a 600 x 480
framebuffer it uploads `(600, 600)`, not `(600, 480)`. -/
theorem renderBulb_resolution_is_width_twice :
    (∀ (r : MandelRenderer) (size : vec2) (dat : RenderData),
      resolutionUploads (r.render_internal size dat) = [(size.x, size.y)] ∧
      (r.render_internal size dat).head? =
        some (GLCmd.viewport 0 0 (toGLint size.x) (toGLint size.y))) ∧
    (∀ (r : MandelRenderer) (width height : Int) (dat : RenderData),
      (r.render_internal ⟨width, height⟩ dat).head? = some (GLCmd.viewport 0 0 width height)) ∧
    (∀ (p : AppParams) (mycam : camera) (width height : Int) (view : mat4),
      resolutionUploads (renderBulb p mycam width height view)
        = [((width : GLfloat), (width : GLfloat))]) ∧
    resolutionUploads (renderBulb sampleParams sampleCamera 600 480 []) = [(600, 600)] ∧
    resolutionUploads (renderBulb sampleParams sampleCamera 600 480 []) ≠ [(600, 480)] := by
  refine ⟨fun r size dat => ⟨rfl, rfl⟩, ?_, fun p mycam width height view => rfl, ?_, ?_⟩
  · intro r width height dat
    simp [MandelRenderer.render_internal, toGLint_intCast]
  · simp [resolutionUploads, renderBulb]
  · simp [resolutionUploads, renderBulb]

/-- C7: the commands of one `render_internal` call contain exactly one draw
call, `glDrawArrays(GL_TRIANGLES, 0, 6)`; it is the last command, directly
preceded by the binding of the unit-plane vertex array; every upload comes
before these two; and the commands start with the viewport set to
`(0, 0, size.x, size.y)` (the floats converted to integers), the clear colour
and the clearing of the colour buffer. -/
theorem render_internal_single_draw (r : MandelRenderer) (size : vec2) (dat : RenderData) :
    (r.render_internal size dat).filter GLCmd.isDraw = [GLCmd.drawArrays GL_TRIANGLES 0 6] ∧
    (∃ pre : List GLCmd,
      r.render_internal size dat
        = pre ++ [GLCmd.bindVertexArray r.VertexArrayUnitPlane,
                  GLCmd.drawArrays GL_TRIANGLES 0 6] ∧
      pre.take 3 = [GLCmd.viewport 0 0 (toGLint size.x) (toGLint size.y),
                    GLCmd.clearColor 0 0 0 0, GLCmd.clear GL_COLOR_BUFFER_BIT] ∧
      pre.length = 19 ∧
      (∀ c ∈ pre.drop 3, c.uniformName ≠ none) ∧
      (∀ c ∈ pre, c.isDraw = false)) ∧
    (GLCmd.bindVertexArray r.VertexArrayUnitPlane).uniformName = none ∧
    (GLCmd.drawArrays GL_TRIANGLES 0 6).uniformName = none := by
  refine ⟨rfl, ⟨(r.render_internal size dat).take 19, rfl, rfl, rfl, ?_, ?_⟩, rfl, rfl⟩
  · simp [MandelRenderer.render_internal, GLCmd.uniformName]
  · simp [MandelRenderer.render_internal, GLCmd.isDraw]

/-- Whatever the array held before, after the eighteen assignments the buffer
holds `unitPlaneFloats`. -/
lemma init_eq_unitPlaneFloats (ver0 : List GLfloat) (h : ver0.length = 18) :
    MandelRenderer.init ver0 = unitPlaneFloats := by
  apply List.ext_getElem
  · simp [MandelRenderer.init, putVer, unitPlaneFloats, h]
  · intro i h1 h2
    simp [unitPlaneFloats] at h2
    interval_cases i <;>
      simp [MandelRenderer.init, putVer, unitPlaneFloats, List.getElem_take, List.getElem_set]

/-- C8: the vertex data `MandelRenderer::init` builds is 18 floats, 6 vertices
with `z = 0`, forming the triangles (0,0),(1,1),(0,1) and (0,0),(1,0),(1,1);
each has area 1/2, no point is interior to both, and a point of the plane lies
in one of them exactly when it lies in the unit square; `initGeom` builds the
same sequence. -/
theorem unit_plane_covers_unit_square (ver0 : List GLfloat) (h : ver0.length = 18) :
    MandelRenderer.init ver0 = unitPlaneFloats ∧
    (MandelRenderer.init ver0).length = 18 ∧
    (∀ i < 6, (vertexAt (MandelRenderer.init ver0) i).z = 0) ∧
    triangleAt (MandelRenderer.init ver0) 0 = (⟨0, 0, 0⟩, ⟨1, 1, 0⟩, ⟨0, 1, 0⟩) ∧
    triangleAt (MandelRenderer.init ver0) 1 = (⟨0, 0, 0⟩, ⟨1, 0, 0⟩, ⟨1, 1, 0⟩) ∧
    triangleArea (triangleAt (MandelRenderer.init ver0) 0) = 1 / 2 ∧
    triangleArea (triangleAt (MandelRenderer.init ver0) 1) = 1 / 2 ∧
    (∀ (K : Type) [LinearOrderedField K] (p : K × K),
      ¬ (inInterior (triangleAt (MandelRenderer.init ver0) 0) p ∧
         inInterior (triangleAt (MandelRenderer.init ver0) 1) p)) ∧
    (∀ (K : Type) [LinearOrderedField K] (p : K × K),
      (inTriangle (triangleAt (MandelRenderer.init ver0) 0) p ∨
       inTriangle (triangleAt (MandelRenderer.init ver0) 1) p) ↔
      (0 ≤ p.1 ∧ p.1 ≤ 1 ∧ 0 ≤ p.2 ∧ p.2 ≤ 1)) ∧
    initGeom ver0 = MandelRenderer.init ver0 := by
  have hb := init_eq_unitPlaneFloats ver0 h
  have hg : initGeom ver0 = MandelRenderer.init ver0 := rfl
  have t0 : triangleAt unitPlaneFloats 0 = (⟨0, 0, 0⟩, ⟨1, 1, 0⟩, ⟨0, 1, 0⟩) := by
    simp [triangleAt, vertexAt, unitPlaneFloats]
  have t1 : triangleAt unitPlaneFloats 1 = (⟨0, 0, 0⟩, ⟨1, 0, 0⟩, ⟨1, 1, 0⟩) := by
    simp [triangleAt, vertexAt, unitPlaneFloats]
  rw [hb, t0, t1]
  refine ⟨rfl, rfl, ?_, rfl, rfl, ?_, ?_, ?_, ?_, ?_⟩
  · intro i hi
    interval_cases i <;> simp [vertexAt, unitPlaneFloats]
  · simp [triangleArea, signedArea, edgeFn]
  · simp [triangleArea, signedArea, edgeFn]
  · intro K _ p
    simp only [inInterior, edgeFn, Rat.cast_zero, Rat.cast_one]
    rintro ⟨h0 | h0, h1 | h1⟩ <;> obtain ⟨a0, b0, c0⟩ := h0 <;> obtain ⟨a1, b1, c1⟩ := h1 <;>
      linarith
  · intro K _ p
    simp only [inTriangle, edgeFn, Rat.cast_zero, Rat.cast_one]
    constructor
    · rintro ((⟨a, b, c⟩ | ⟨a, b, c⟩) | (⟨a, b, c⟩ | ⟨a, b, c⟩)) <;>
        refine ⟨?_, ?_, ?_, ?_⟩ <;> linarith
    · rintro ⟨hx0, hx1, hy0, hy1⟩
      rcases le_total p.1 p.2 with hxy | hxy
      · left; left
        refine ⟨?_, ?_, ?_⟩ <;> linarith
      · right; left
        refine ⟨?_, ?_, ?_⟩ <;> linarith
  · exact hg.trans hb

/-- Witness of C8 with the array initially all zero. -/
theorem unit_plane_covers_unit_square_witness :
    MandelRenderer.init (List.replicate 18 0) = unitPlaneFloats ∧
    initGeom (List.replicate 18 0) = MandelRenderer.init (List.replicate 18 0) :=
  have h := unit_plane_covers_unit_square (List.replicate 18 0) (by simp)
  ⟨h.1, h.2.2.2.2.2.2.2.2.2⟩

/-- The camera after `keyCallback` when the panel does not want the keyboard:
the thirteen conditional assignments of lines 130-188 applied in order. -/
lemma keyCallback_mycam (eyepos : vec4) (st : AppState) (key scancode action mods : Int)
    (h : st.io.WantCaptureKeyboard = false) :
    (keyCallback eyepos st key scancode action mods).mycam =
      (let mycam := st.mycam
       let mycam := if key = 87 ∧ action = 1 then { mycam with w := 1 } else mycam
       let mycam := if key = 87 ∧ action = 0 then { mycam with w := 0 } else mycam
       let mycam := if key = 83 ∧ action = 1 then { mycam with s := 1 } else mycam
       let mycam := if key = 83 ∧ action = 0 then { mycam with s := 0 } else mycam
       let mycam := if key = 65 ∧ action = 1 then { mycam with a := 1 } else mycam
       let mycam := if key = 65 ∧ action = 0 then { mycam with a := 0 } else mycam
       let mycam := if key = 68 ∧ action = 1 then { mycam with d := 1 } else mycam
       let mycam := if key = 68 ∧ action = 0 then { mycam with d := 0 } else mycam
       let mycam := if key = 81 ∧ action = 1 then { mycam with q := 1 } else mycam
       let mycam := if key = 81 ∧ action = 0 then { mycam with q := 0 } else mycam
       let mycam := if key = 69 ∧ action = 1 then { mycam with e := 1 } else mycam
       let mycam := if key = 69 ∧ action = 0 then { mycam with e := 0 } else mycam
       let mycam := if key = 79 ∧ action = 1 then
           { mycam with pos := ⟨eyepos.x, eyepos.y, eyepos.z⟩, rot := ⟨0, 0, 0⟩ } else mycam
       mycam) := by
  unfold keyCallback
  by_cases hp : action = 1 <;> by_cases hr : action = 0 <;>
    by_cases he : key = 256 <;> simp [h, hp, hr, he]

/-- Function `keyCallback` never changes what the panel reports. -/
lemma keyCallback_wantCaptureKeyboard (eyepos : vec4) (st : AppState)
    (key scancode action mods : Int) :
    (keyCallback eyepos st key scancode action mods).io.WantCaptureKeyboard
      = st.io.WantCaptureKeyboard := by
  unfold keyCallback
  by_cases hp : action = 1 <;> by_cases hr : action = 0 <;>
    by_cases he : key = 256 <;> by_cases hc : st.io.WantCaptureKeyboard = true <;>
    simp [hp, hr, he, hc]

/-- C9: while the panel does not want the keyboard, pressing a movement key
sets its camera flag to 1 and releasing it sets the flag to 0, every other
field of the camera staying as it was; handling an event twice leaves the
camera as handling it once does; and an event whose action is neither press
nor release, or whose key is none of W, S, A, D, Q, E, O, leaves the camera as
it was. -/
theorem keyCallback_movement_flags (eyepos : vec4) (st : AppState) (scancode mods : Int)
    (h : st.io.WantCaptureKeyboard = false) :
    (keyCallback eyepos st GLFW_KEY_W scancode GLFW_PRESS mods).mycam
      = { st.mycam with w := 1 } ∧
    (keyCallback eyepos st GLFW_KEY_W scancode GLFW_RELEASE mods).mycam
      = { st.mycam with w := 0 } ∧
    (keyCallback eyepos st GLFW_KEY_S scancode GLFW_PRESS mods).mycam
      = { st.mycam with s := 1 } ∧
    (keyCallback eyepos st GLFW_KEY_S scancode GLFW_RELEASE mods).mycam
      = { st.mycam with s := 0 } ∧
    (keyCallback eyepos st GLFW_KEY_A scancode GLFW_PRESS mods).mycam
      = { st.mycam with a := 1 } ∧
    (keyCallback eyepos st GLFW_KEY_A scancode GLFW_RELEASE mods).mycam
      = { st.mycam with a := 0 } ∧
    (keyCallback eyepos st GLFW_KEY_D scancode GLFW_PRESS mods).mycam
      = { st.mycam with d := 1 } ∧
    (keyCallback eyepos st GLFW_KEY_D scancode GLFW_RELEASE mods).mycam
      = { st.mycam with d := 0 } ∧
    (keyCallback eyepos st GLFW_KEY_Q scancode GLFW_PRESS mods).mycam
      = { st.mycam with q := 1 } ∧
    (keyCallback eyepos st GLFW_KEY_Q scancode GLFW_RELEASE mods).mycam
      = { st.mycam with q := 0 } ∧
    (keyCallback eyepos st GLFW_KEY_E scancode GLFW_PRESS mods).mycam
      = { st.mycam with e := 1 } ∧
    (keyCallback eyepos st GLFW_KEY_E scancode GLFW_RELEASE mods).mycam
      = { st.mycam with e := 0 } ∧
    (∀ key action : Int,
      (keyCallback eyepos (keyCallback eyepos st key scancode action mods)
          key scancode action mods).mycam
        = (keyCallback eyepos st key scancode action mods).mycam) ∧
    (∀ key action : Int,
      ((action ≠ GLFW_PRESS ∧ action ≠ GLFW_RELEASE) ∨ key ∉ GLFW_KEY_O :: movementKeys) →
      (keyCallback eyepos st key scancode action mods).mycam = st.mycam) := by
  refine ⟨?_, ?_, ?_, ?_, ?_, ?_, ?_, ?_, ?_, ?_, ?_, ?_, ?_, ?_⟩
  iterate 12 (rw [keyCallback_mycam _ _ _ _ _ _ h]; simp)
  · intro key action
    have h2 : (keyCallback eyepos st key scancode action mods).io.WantCaptureKeyboard = false := by
      rw [keyCallback_wantCaptureKeyboard]; exact h
    rw [keyCallback_mycam _ _ _ _ _ _ h2, keyCallback_mycam _ _ _ _ _ _ h]
    by_cases hp : action = 1 <;> by_cases hr : action = 0 <;>
      by_cases k1 : key = 87 <;> by_cases k2 : key = 83 <;> by_cases k3 : key = 65 <;>
      by_cases k4 : key = 68 <;> by_cases k5 : key = 81 <;> by_cases k6 : key = 69 <;>
      by_cases k7 : key = 79 <;> first | omega | simp [hp, hr, k1, k2, k3, k4, k5, k6, k7]
  · intro key action hk
    rw [keyCallback_mycam _ _ _ _ _ _ h]
    rcases hk with ⟨hp, hr⟩ | hk
    · simp [hp, hr]
    · simp [movementKeys] at hk
      obtain ⟨k7, k1, k2, k3, k4, k5, k6⟩ := hk
      simp [k1, k2, k3, k4, k5, k6, k7]

/-- Witness of C9 at the idle application. -/
theorem keyCallback_movement_flags_witness :
    idleApp.io.WantCaptureKeyboard = false ∧
    (keyCallback ⟨0, 0, -2, 1⟩ idleApp GLFW_KEY_W 25 GLFW_PRESS 0).mycam
      = { idleApp.mycam with w := 1 } :=
  ⟨rfl, (keyCallback_movement_flags ⟨0, 0, -2, 1⟩ idleApp 25 0 rfl).1⟩

/-- C10: a key event that arrives while the panel wants the keyboard leaves
the camera as it was.  The mouse callbacks never consult the panel: with the
panel wanting the mouse, a right-button press at cursor (100, 100) turns
`aiming` on, and the cursor move to (130, 100) on a 600 x 480 framebuffer that
follows calls `camera::rotate` with (-1/20, 0), which changes the camera. -/
theorem mouse_callbacks_ignore_panel_focus :
    (∀ (eyepos : vec4) (st : AppState) (key scancode action mods : Int),
      (keyCallback eyepos { st with io := { st.io with WantCaptureKeyboard := true } }
          key scancode action mods).mycam = st.mycam) ∧
    panelFocusedApp.io.WantCaptureMouse = true ∧
    panelFocusedApp.aiming = false ∧
    (mouseCallback (100, 100) panelFocusedApp GLFW_MOUSE_BUTTON_RIGHT GLFW_PRESS 0).aiming
      = true ∧
    (mouseCallback (100, 100) panelFocusedApp
        GLFW_MOUSE_BUTTON_RIGHT GLFW_PRESS 0).io.WantCaptureMouse = true ∧
    (∀ rotate : camera → double → double → camera,
      (cursorPosCallback rotate 600 480
          (mouseCallback (100, 100) panelFocusedApp GLFW_MOUSE_BUTTON_RIGHT GLFW_PRESS 0)
          130 100).mycam
        = rotate panelFocusedApp.mycam (-1 / 20) 0) ∧
    (cursorPosCallback addRotation 600 480
        (mouseCallback (100, 100) panelFocusedApp GLFW_MOUSE_BUTTON_RIGHT GLFW_PRESS 0)
        130 100).mycam
      ≠ panelFocusedApp.mycam := by
  refine ⟨?_, rfl, rfl, by decide, rfl, ?_, ?_⟩
  · intro eyepos st key scancode action mods
    unfold keyCallback
    by_cases hp : action = 1 <;> by_cases hr : action = 0 <;> simp [hp, hr]
  · intro rotate
    simp only [cursorPosCallback, mouseCallback, panelFocusedApp, idleApp]
    norm_num
  · simp only [cursorPosCallback, mouseCallback, panelFocusedApp, idleApp, addRotation,
      sampleCamera]
    norm_num

/-- What `mouseCallback` does to the camera, to `aiming` and to the recorded
cursor position. -/
lemma mouseCallback_fields (cursor : double × double) (st : AppState)
    (button action mods : Int) :
    (mouseCallback cursor st button action mods).mycam = st.mycam ∧
    (mouseCallback cursor st button action mods).aiming
      = (if button = 1 then decide (action = 1) else st.aiming) ∧
    (mouseCallback cursor st button action mods).prevX
      = (if button = 1 then cursor.1 else st.prevX) ∧
    (mouseCallback cursor st button action mods).prevY
      = (if button = 1 then cursor.2 else st.prevY) := by
  by_cases hb : button = 1 <;> by_cases hp : action = 1 <;>
    by_cases hr : 0 ≤ button ∧ button < 3 <;> simp [mouseCallback, hb, hp, hr]

/-- What `cursorPosCallback` does to the camera, to `aiming` and to the
recorded cursor position. -/
lemma cursorPosCallback_fields (rotate : camera → double → double → camera) (w h : Int)
    (st : AppState) (x y : double) :
    (cursorPosCallback rotate w h st x y).mycam
      = (if st.aiming then
          rotate st.mycam ((st.prevX - x) / (w : double)) ((st.prevY - y) / (h : double))
         else st.mycam) ∧
    (cursorPosCallback rotate w h st x y).aiming = st.aiming ∧
    (cursorPosCallback rotate w h st x y).prevX = (if st.aiming then x else st.prevX) ∧
    (cursorPosCallback rotate w h st x y).prevY = (if st.aiming then y else st.prevY) := by
  by_cases ha : st.aiming = true <;> simp [cursorPosCallback, ha]

/-- After a sequence of mouse events `aiming` tells whether the most recent
right-button event was a press. -/
lemma deliverAll_aiming (rotate : camera → double → double → camera) (st : AppState)
    (evs : List InputEvent) :
    (deliverAll rotate st evs).aiming = gestureActive st.aiming evs := by
  induction evs using List.reverseRecOn with
  | nil => simp [deliverAll, gestureActive, rightButtonActions]
  | append_singleton l e ih =>
    have hstep : deliverAll rotate st (l ++ [e]) = deliver rotate (deliverAll rotate st l) e := by
      simp [deliverAll, List.foldl_append]
    rw [hstep]
    cases e with
    | mouseButton cursor button action mods =>
      simp only [deliver, (mouseCallback_fields _ _ _ _ _).2.1]
      by_cases hb : button = 1
      · simp [gestureActive, rightButtonActions, List.filterMap_append, hb]
      · have h2 : gestureActive st.aiming (l ++ [InputEvent.mouseButton cursor button action mods])
            = gestureActive st.aiming l := by
          simp [gestureActive, rightButtonActions, List.filterMap_append, hb]
        rw [h2, ← ih]
        simp [hb]
    | cursorPos w h x y =>
      have h2 : gestureActive st.aiming (l ++ [InputEvent.cursorPos w h x y])
          = gestureActive st.aiming l := by
        simp [gestureActive, rightButtonActions, List.filterMap_append]
      rw [h2, ← ih]
      simp only [deliver, (cursorPosCallback_fields _ _ _ _ _ _).2.1]

/-- After a sequence of mouse events the camera is the camera at the start
with the rotate calls of `rotateCalls` applied in order, and `prevX, prevY`
hold the recorded cursor position. -/
lemma deliverAll_camera (rotate : camera → double → double → camera) (evs : List InputEvent) :
    ∀ st : AppState,
      (deliverAll rotate st evs).mycam
        = (rotateCalls st.aiming (st.prevX, st.prevY) evs).foldl
            (fun c a => rotate c a.1 a.2) st.mycam ∧
      ((deliverAll rotate st evs).prevX, (deliverAll rotate st evs).prevY)
        = recordedCursor st.aiming (st.prevX, st.prevY) evs := by
  induction evs with
  | nil => intro st; simp [deliverAll, rotateCalls, recordedCursor]
  | cons e evs ih =>
    intro st
    have hstep : deliverAll rotate st (e :: evs) = deliverAll rotate (deliver rotate st e) evs := by
      simp [deliverAll]
    rw [hstep]
    have ih2 := ih (deliver rotate st e)
    cases e with
    | mouseButton cursor button action mods =>
      obtain ⟨f1, f2, f3, f4⟩ := mouseCallback_fields cursor st button action mods
      simp only [deliver, f1, f2, f3, f4] at ih2 ⊢
      by_cases hb : button = 1
      · simpa [rotateCalls, recordedCursor, hb] using ih2
      · simpa [rotateCalls, recordedCursor, hb] using ih2
    | cursorPos w h x y =>
      obtain ⟨f1, f2, f3, f4⟩ := cursorPosCallback_fields rotate w h st x y
      simp only [deliver, f1, f2, f3, f4] at ih2 ⊢
      by_cases ha : st.aiming = true
      · simpa [rotateCalls, recordedCursor, ha] using ih2
      · simp only [Bool.not_eq_true] at ha
        simpa [rotateCalls, recordedCursor, ha] using ih2

/-- C11: over every sequence of mouse-button and cursor events, starting
from any state: `aiming` is on exactly when the most recent right-button
event was a press; the camera is the starting camera with the rotate calls
that the specification describes applied in order, and `prevX, prevY` hold
the recorded cursor position; a further button event does not touch the
camera; a further cursor event calls rotate with
`((prevX - x) / w, (prevY - y) / h)` and stores `(x, y)` in `prevX, prevY`
when `aiming` is on, and changes nothing at all when it is off. -/
theorem rotate_only_during_look_gesture (rotate : camera → double → double → camera)
    (st : AppState) (evs : List InputEvent) :
    (deliverAll rotate st evs).aiming = gestureActive st.aiming evs ∧
    (deliverAll rotate st evs).mycam
      = (rotateCalls st.aiming (st.prevX, st.prevY) evs).foldl
          (fun c a => rotate c a.1 a.2) st.mycam ∧
    ((deliverAll rotate st evs).prevX, (deliverAll rotate st evs).prevY)
      = recordedCursor st.aiming (st.prevX, st.prevY) evs ∧
    (∀ (cursor : double × double) (button action mods : Int),
      (mouseCallback cursor (deliverAll rotate st evs) button action mods).mycam
        = (deliverAll rotate st evs).mycam) ∧
    (∀ (w h : Int) (x y : double),
      cursorPosCallback rotate w h (deliverAll rotate st evs) x y
        = if (deliverAll rotate st evs).aiming then
            { deliverAll rotate st evs with
              prevX := x
              prevY := y
              mycam := rotate (deliverAll rotate st evs).mycam
                (((deliverAll rotate st evs).prevX - x) / (w : double))
                (((deliverAll rotate st evs).prevY - y) / (h : double)) }
          else deliverAll rotate st evs) := by
  refine ⟨deliverAll_aiming rotate st evs, (deliverAll_camera rotate evs st).1,
    (deliverAll_camera rotate evs st).2, ?_, ?_⟩
  · intro cursor button action mods
    exact (mouseCallback_fields cursor _ button action mods).1
  · intro w h x y
    by_cases ha : (deliverAll rotate st evs).aiming = true <;> simp [cursorPosCallback, ha]

/-- C12: every value a slider of `doImgui` can assign keeps the data-model
invariant of the field it edits, and for every such field some slider of
`doImgui` can assign the default of `Application`, so the default lies in the
range: step count range [1, 1024] with default 128, modulo range [2, 32] with
default 8, map iteration count range [1, 32] with default 4, step size range
[1e-20, 1e-1] with default 0.0025, and zoom level, start offset, escape
factor and map result factor with positive minimum and default 1. -/
theorem slider_values_keep_invariants (wd : Widget) (hw : wd ∈ doImgui) (t : SliderTarget)
    (value : GLfloat) (hv : wd.canAssign t value) :
    dataModelInvariant t value ∧
    (∀ t2 : SliderTarget, ∃ w2 ∈ doImgui, w2.canAssign t2 (defaultOf applicationDefaults t2)) ∧
    Widget.SliderInt "intersect step count" .intersect_step_count 1 1024 ∈ doImgui ∧
    applicationDefaults.intersect_step_count = 128 ∧
    Widget.SliderInt "Mandelbulb modulo" .modulo 2 32 ∈ doImgui ∧
    applicationDefaults.modulo = 8 ∧
    Widget.SliderInt "Mandelbulb map iter count" .map_iter_count 1 32 ∈ doImgui ∧
    applicationDefaults.map_iter_count = 4 ∧
    Widget.SliderFloat "intersect step size" .intersect_step_size (1 / 10 ^ 20) (1 / 10)
      "%.3e" (15 / 10) ∈ doImgui ∧
    applicationDefaults.intersect_step_size = 25 / 10000 ∧
    applicationDefaults.zoom_level = 1 ∧
    applicationDefaults.start_offset = 1 ∧
    applicationDefaults.escape_factor = 1 ∧
    applicationDefaults.map_result_factor = 1 := by
  refine ⟨?_, ?_, by simp [doImgui], rfl, by simp [doImgui], rfl, by simp [doImgui], rfl,
    by simp [doImgui], rfl, rfl, rfl, rfl, rfl⟩
  · simp only [doImgui, List.mem_cons, List.mem_singleton, List.not_mem_nil, or_false] at hw
    rcases hw with h | h | h | h | h | h | h | h | h | h | h | h | h | h <;> subst h <;>
      simp only [Widget.canAssign] at hv
    · obtain ⟨rfl, h1, h2⟩ := hv
      simp only [dataModelInvariant]; linarith
    · obtain ⟨rfl, h1, h2⟩ := hv
      simp only [dataModelInvariant]; linarith
    · obtain ⟨rfl, h1, h2⟩ := hv
      simp only [dataModelInvariant]
      have : (0 : GLfloat) < 1 / 10 ^ 20 := by positivity
      linarith
    · obtain ⟨rfl, n, rfl, h1, h2⟩ := hv
      simp only [dataModelInvariant]
      exact ⟨by exact_mod_cast h1, by exact_mod_cast h2⟩
    · obtain ⟨rfl, n, rfl, h1, h2⟩ := hv
      simp only [dataModelInvariant]
      exact_mod_cast h1
    · obtain ⟨rfl, h1, h2⟩ := hv
      simp only [dataModelInvariant]; linarith
    · obtain ⟨rfl, h1, h2⟩ := hv
      simp only [dataModelInvariant]; linarith
    · obtain ⟨rfl, n, rfl, h1, h2⟩ := hv
      simp only [dataModelInvariant]
      exact_mod_cast h1
  · intro t2
    cases t2
    · refine ⟨.SliderFloat "mapping start offset" .start_offset (2 / 1000) 30 "%.3f" (12 / 10),
        by simp [doImgui], ?_⟩
      simp only [Widget.canAssign, defaultOf, applicationDefaults]; norm_num
    · refine ⟨.SliderFloat "zoom level" .zoomLevel (2 / 1000) 30 "%.3f" (12 / 10),
        by simp [doImgui], ?_⟩
      simp only [Widget.canAssign, defaultOf, applicationDefaults]; norm_num
    · refine ⟨.SliderFloat "intersect step size" .intersect_step_size (1 / 10 ^ 20) (1 / 10)
        "%.3e" (15 / 10), by simp [doImgui], ?_⟩
      simp only [Widget.canAssign, defaultOf, applicationDefaults]; norm_num
    · refine ⟨.SliderInt "intersect step count" .intersect_step_count 1 1024,
        by simp [doImgui], ?_⟩
      exact ⟨rfl, 128, by simp [defaultOf, applicationDefaults], by norm_num, by norm_num⟩
    · refine ⟨.SliderInt "Mandelbulb modulo" .modulo 2 32, by simp [doImgui], ?_⟩
      exact ⟨rfl, 8, by simp [defaultOf, applicationDefaults], by norm_num, by norm_num⟩
    · refine ⟨.SliderFloat "Mandelbulb escape factor" .escape_factor (1 / 100) 10 "%.3f"
        (42 / 10), by simp [doImgui], ?_⟩
      simp only [Widget.canAssign, defaultOf, applicationDefaults]; norm_num
    · refine ⟨.SliderFloat "Mandelbulb map result factor" .map_result_factor (1 / 100) 10
        "%.3f" (42 / 10), by simp [doImgui], ?_⟩
      simp only [Widget.canAssign, defaultOf, applicationDefaults]; norm_num
    · refine ⟨.SliderInt "Mandelbulb map iter count" .map_iter_count 1 32,
        by simp [doImgui], ?_⟩
      exact ⟨rfl, 4, by simp [defaultOf, applicationDefaults], by norm_num, by norm_num⟩

/-- Witness of C12: the step-count slider assigning 1024. -/
theorem slider_values_keep_invariants_witness :
    dataModelInvariant .intersect_step_count 1024 :=
  (slider_values_keep_invariants
    (.SliderInt "intersect step count" .intersect_step_count 1 1024) (by simp [doImgui])
    .intersect_step_count 1024 ⟨rfl, 1024, by norm_num, by norm_num, by norm_num⟩).1

/-- C13: the constructor makes the new object the `instance` whether or not
one existed.  With a first manager (callbacks 10) and then a second one
(callbacks 20) the constructor writes that the callbacks of the new instance
will not work, yet key, mouse-button, resize and cursor events all go to the
callbacks of the second manager, none to those of the first; and when the
second manager has no callbacks the events go nowhere. -/
theorem second_manager_takes_over_dispatch :
    (∀ (this : Nat) (wld : WMWorld), (WindowManager.construct this wld).instance_ = some this) ∧
    twoManagers.cerr = [secondInstanceLine] ∧
    twoManagers.instance_ = some 2 ∧
    twoManagers.callbacks 1 = some 10 ∧
    WindowManager.key_callback twoManagers 0 87 17 1 0
      = some (20, CallbackCall.keyCallback 0 87 17 1 0) ∧
    WindowManager.mouse_callback twoManagers 0 1 1 0
      = some (20, CallbackCall.mouseCallback 0 1 1 0) ∧
    WindowManager.resize_callback twoManagers 0 600 480
      = some (20, CallbackCall.resizeCallback 0 600 480) ∧
    WindowManager.cursorPos_callback twoManagers 0 130 100
      = some (20, CallbackCall.cursorPosCallback 0 130 100) ∧
    WindowManager.key_callback twoManagersOneListener 0 87 17 1 0 = none ∧
    WindowManager.mouse_callback twoManagersOneListener 0 1 1 0 = none ∧
    WindowManager.resize_callback twoManagersOneListener 0 600 480 = none ∧
    WindowManager.cursorPos_callback twoManagersOneListener 0 130 100 = none := by
  refine ⟨?_, by decide, by decide, by decide, by decide, by decide, by decide, by decide,
    by decide, by decide, by decide, by decide⟩
  intro this wld
  by_cases h : wld.instance_.isSome = true <;> simp [WindowManager.construct, h]

/-- C14: in the vertex data of `MandelRenderer::init` (and of `initGeom`) both
triangles, taken in buffer order, have signed area +1/2 in the xy-plane, so
with the culling state that `Application::init` sets up (culling on,
counter-clockwise is front) neither is a back face. -/
theorem unit_plane_triangles_counter_clockwise (ver0 : List GLfloat) (h : ver0.length = 18) :
    signedArea (triangleAt (MandelRenderer.init ver0) 0) = 1 / 2 ∧
    signedArea (triangleAt (MandelRenderer.init ver0) 1) = 1 / 2 ∧
    signedArea (triangleAt (initGeom ver0) 0) = 1 / 2 ∧
    signedArea (triangleAt (initGeom ver0) 1) = 1 / 2 ∧
    Application.initCulling.cullFaceEnabled = true ∧
    Application.initCulling.frontFace = GL_CCW ∧
    ¬ isBackFace Application.initCulling (triangleAt (MandelRenderer.init ver0) 0) ∧
    ¬ isBackFace Application.initCulling (triangleAt (MandelRenderer.init ver0) 1) := by
  have hg : initGeom ver0 = MandelRenderer.init ver0 := rfl
  have hb := init_eq_unitPlaneFloats ver0 h
  have t0 : triangleAt unitPlaneFloats 0 = (⟨0, 0, 0⟩, ⟨1, 1, 0⟩, ⟨0, 1, 0⟩) := by
    simp [triangleAt, vertexAt, unitPlaneFloats]
  have t1 : triangleAt unitPlaneFloats 1 = (⟨0, 0, 0⟩, ⟨1, 0, 0⟩, ⟨1, 1, 0⟩) := by
    simp [triangleAt, vertexAt, unitPlaneFloats]
  have a0 : signedArea (⟨0, 0, 0⟩, ⟨1, 1, 0⟩, ⟨0, 1, 0⟩) = 1 / 2 := by
    simp [signedArea, edgeFn]
  have a1 : signedArea (⟨0, 0, 0⟩, ⟨1, 0, 0⟩, ⟨1, 1, 0⟩) = 1 / 2 := by
    simp [signedArea, edgeFn]
  rw [hg, hb, t0, t1, a0, a1]
  refine ⟨rfl, rfl, rfl, rfl, rfl, rfl, ?_, ?_⟩
  · simp only [isBackFace, Application.initCulling, a0]; norm_num
  · simp only [isBackFace, Application.initCulling, a1]; norm_num

/-- Witness of C14 with the array initially all zero. -/
theorem unit_plane_triangles_counter_clockwise_witness :
    signedArea (triangleAt (MandelRenderer.init (List.replicate 18 0)) 0) = 1 / 2 ∧
    signedArea (triangleAt (MandelRenderer.init (List.replicate 18 0)) 1) = 1 / 2 :=
  have h := unit_plane_triangles_counter_clockwise (List.replicate 18 0) (by simp)
  ⟨h.1, h.2.1⟩

end MandelVR
